import Mathlib

/-!
Shallow embedding of the OIDC relying-party authentication subsystem of the
`glean` repository (backend/apps/api/glean_api/routers/auth.py and
backend/packages/core/glean_core/auth/providers/oidc_provider.py, plus
backend/packages/core/glean_core/redis_keys.py), together with theorems
settling the specification claims about it.

External collaborators (Python standard library and third-party libraries:
`ipaddress.ip_address`, `urllib.parse.urlparse`, `hashlib.sha256`, the `jose`
JWT library, the network, and the Redis server) are modelled as explicit
function parameters or as explicit state passed through the embedded
functions; the repository's own code is translated statement by statement.
-/

namespace Glean

/-! ## Python-style primitives -/

/-- Truthiness of a Python `Optional[str]`: `None` and `""` are falsy. -/
def pyTruthyStr : Option String → Bool
  | none => false
  | some s => !(s = "")

/-- Truthiness of a Python `Optional[int]`: `None` and `0` are falsy. -/
def pyTruthyInt : Option Int → Bool
  | none => false
  | some i => !(i = 0)

/-- Python `a or b` on optional strings (used for `key.get("alg") or header_alg`). -/
def pyOrStr (a b : Option String) : Option String :=
  if pyTruthyStr a then a else b

/-- UTF-8 encoding of a single character (Python `str.encode("utf-8")`, per char). -/
def charUtf8 (c : Char) : List Nat :=
  let n := c.toNat
  if n < 0x80 then [n]
  else if n < 0x800 then [0xC0 + n / 64, 0x80 + n % 64]
  else if n < 0x10000 then [0xE0 + n / 4096, 0x80 + n / 64 % 64, 0x80 + n % 64]
  else [0xF0 + n / 262144, 0x80 + n / 4096 % 64, 0x80 + n / 64 % 64, 0x80 + n % 64]

/-- UTF-8 byte sequence of a string (Python `s.encode("utf-8")`). -/
def utf8Bytes (s : String) : List Nat :=
  (s.data.map charUtf8).flatten

/-- The URL-safe base64 alphabet (RFC 4648 §5), as used by
`base64.urlsafe_b64encode`. -/
def b64UrlAlphabet : List Char :=
  "ABCDEFGHIJKLMNOPQRSTUVWXYZabcdefghijklmnopqrstuvwxyz0123456789-_".data

/-- One output character of URL-safe base64. -/
def b64Char (n : Nat) : Char :=
  b64UrlAlphabet.getD (n % 64) 'A'

/-- Character stream of `base64.urlsafe_b64encode` (with `=` padding). -/
def base64EncChars : List Nat → List Char
  | [] => []
  | [a] => [b64Char (a / 4), b64Char (a % 4 * 16), '=', '=']
  | [a, b] => [b64Char (a / 4), b64Char (a % 4 * 16 + b / 16), b64Char (b % 16 * 4), '=']
  | a :: b :: c :: rest =>
      b64Char (a / 4) :: b64Char (a % 4 * 16 + b / 16) ::
        b64Char (b % 16 * 4 + c / 64) :: b64Char (c % 64) :: base64EncChars rest

/-- `base64.urlsafe_b64encode` over a byte sequence, decoded to `str`. -/
def base64urlEncode (bytes : List Nat) : String :=
  ⟨base64EncChars bytes⟩

/-- Python `s.rstrip("=")`: drop trailing `=` characters. -/
def rstripEq (s : String) : String :=
  ⟨(s.data.reverse.dropWhile (fun c => c = '=')).reverse⟩

/-- Unpadded URL-safe base64: `base64.urlsafe_b64encode(b).rstrip(b"=")`. -/
def base64urlEncodeNopad (bytes : List Nat) : String :=
  rstripEq (base64urlEncode bytes)

/-- `secrets.token_urlsafe`: URL-safe base64 (no padding) of fresh random
bytes; the randomness is the explicit `bytes` argument. -/
def token_urlsafe (bytes : List Nat) : String :=
  base64urlEncodeNopad bytes

/-- Bytes that `urllib.parse.quote_plus` leaves unescaped (letters, digits,
and `_.-~`). -/
def isUrlSafeByte (b : Nat) : Bool :=
  (0x41 ≤ b && b ≤ 0x5A) || (0x61 ≤ b && b ≤ 0x7A) || (0x30 ≤ b && b ≤ 0x39) ||
    b = 0x5F || b = 0x2E || b = 0x2D || b = 0x7E

/-- One uppercase hex digit. -/
def hexDigit (n : Nat) : Char :=
  ("0123456789ABCDEF".data).getD (n % 16) '0'

/-- Percent-escape of one byte. -/
def percentByte (b : Nat) : List Char :=
  ['%', hexDigit (b / 16), hexDigit (b % 16)]

/-- `urllib.parse.quote_plus` over a string's UTF-8 bytes. -/
def quotePlus (s : String) : String :=
  ⟨((utf8Bytes s).map (fun b =>
      if b = 32 then [' ']
      else if isUrlSafeByte b then [Char.ofNat b]
      else percentByte b)).flatten⟩

/-- `urllib.parse.urlencode` over an ordered key/value list. -/
def urlencode (params : List (String × String)) : String :=
  String.intercalate "&" (params.map (fun kv => quotePlus kv.1 ++ "=" ++ quotePlus kv.2))

/-- The whitespace characters stripped by Python `str.strip()` (ASCII set). -/
def isPySpace (c : Char) : Bool :=
  c = ' ' || c = '\t' || c = '\n' || c = '\r' || c = '\x0b' || c = '\x0c'

/-- Python `str.strip()`: remove leading and trailing whitespace. -/
def pyStrip (s : String) : String :=
  ⟨((s.data.dropWhile isPySpace).reverse.dropWhile isPySpace).reverse⟩

/-- Python `str.split(",")`: split on every comma, keeping empty pieces. -/
def pySplitComma (s : String) : List String :=
  (s.data.splitOn ',').map (fun piece => ⟨piece⟩)

/-- `_parse_csv_config`: split a comma-separated config value, strip items,
drop empties. -/
def parse_csv_config (value : String) : List String :=
  ((pySplitComma value).map pyStrip).filter (fun item => !(item = ""))

end Glean

namespace Glean.RedisKeys

/-! ## glean_core/redis_keys.py -/

/-- TTL for the OIDC CSRF state key (seconds). -/
def OIDC_STATE_TTL : Nat := 300

/-- `RedisKeys.oidc_state`: key for the OIDC CSRF state marker. -/
def oidc_state (state : String) : String :=
  "oidc_state:" ++ state

/-- TTL for the OIDC nonce key (seconds). -/
def OIDC_NONCE_TTL : Nat := 300

/-- `RedisKeys.oidc_nonce`: key for the OIDC replay nonce, stored by state. -/
def oidc_nonce (state : String) : String :=
  "oidc_nonce:" ++ state

/-- `RedisKeys.oidc_rate_limit`: key for the OIDC endpoint rate-limit
counter, by action and client identifier. -/
def oidc_rate_limit (action clientId : String) : String :=
  "oidc_rate_limit:" ++ action ++ ":" ++ clientId

/-- Modelled from the spec: `RedisKeys.OIDC_PKCE_VERIFIER_TTL` is referenced
by the router but absent from the sources provided; the spec's data model
gives the PKCE verifier "comparable TTL" to the state and nonce (300 s). -/
def OIDC_PKCE_VERIFIER_TTL : Nat := 300

/-- Modelled from the spec: `RedisKeys.oidc_pkce_verifier` is referenced by
the router but absent from the sources provided; the spec's key layout names
a distinct "PKCE-verifier-by-state" namespace alongside `oidc_state:{state}`
and `oidc_nonce:{state}`. -/
def oidc_pkce_verifier (state : String) : String :=
  "oidc_pkce_verifier:" ++ state

end Glean.RedisKeys

namespace Glean

/-! ## Transient (Redis) store models

A string-valued store with per-key TTL for the OIDC state/nonce/PKCE keys,
and an integer counter store with optional TTL for the rate limiter.  Both
are total functions from keys; `none` means the key is absent.
-/

/-- String-valued Redis keys with their remaining TTL in seconds. -/
def KVStore : Type := String → Option (String × Nat)

/-- Redis `SETEX key ttl value`. -/
def kvSetex (s : KVStore) (key : String) (ttl : Nat) (value : String) : KVStore :=
  fun k => if k = key then some (value, ttl) else s k

/-- Redis `GET key`. -/
def kvGet (s : KVStore) (key : String) : Option String :=
  (s key).map Prod.fst

/-- Redis `EXISTS key` (as a boolean). -/
def kvExists (s : KVStore) (key : String) : Bool :=
  (s key).isSome

/-- Redis `DEL key`. -/
def kvDelete (s : KVStore) (key : String) : KVStore :=
  fun k => if k = key then none else s k

/-- Integer counters with an optional TTL (`none` = no expiry set). -/
def CounterStore : Type := String → Option (Nat × Option Nat)

/-- Redis `INCR key`: create at 1 with no expiry, or increment preserving
the TTL; returns the post-increment value. -/
def csIncr (s : CounterStore) (key : String) : Nat × CounterStore :=
  match s key with
  | none => (1, fun k => if k = key then some (1, none) else s k)
  | some (c, t) => (c + 1, fun k => if k = key then some (c + 1, t) else s k)

/-- Redis `EXPIRE key seconds`: set the TTL of an existing key. -/
def csExpire (s : CounterStore) (key : String) (seconds : Nat) : CounterStore :=
  match s key with
  | none => s
  | some (c, _) => fun k => if k = key then some (c, some seconds) else s k

/-- Redis `TTL key`: `-2` when the key is absent, `-1` when it has no
expiry, otherwise the remaining TTL. -/
def csTTL (s : CounterStore) (key : String) : Int :=
  match s key with
  | none => -2
  | some (_, none) => -1
  | some (_, some t) => (t : Int)

end Glean

namespace Glean

/-! ## Request model and client identifier resolution (routers/auth.py) -/

/-- The parts of a FastAPI `Request` the router reads: the transport-layer
peer address (`request.client.host`, `none` when `request.client` is `None`)
and the header map (`request.headers.get`). -/
structure Request where
  clientHost : Option String
  headers : String → Option String

/-- The OIDC-related fields of `auth_provider_config`. -/
structure AuthProviderConfig where
  oidc_enabled : Bool
  oidc_rate_limit_window_seconds : Nat
  oidc_authorize_rate_limit : Nat
  oidc_callback_rate_limit : Nat
  oidc_trusted_proxy_ips : String
  oidc_client_ip_headers : String

/-- `_parse_ip`: strip, then parse and normalize via `ipaddress.ip_address`;
`none` on `ValueError`.  `ipAddr` models `str(ipaddress.ip_address(-))`. -/
def parse_ip (ipAddr : String → Option String) (ipValue : String) : Option String :=
  ipAddr (pyStrip ipValue)

/-- The normalized trusted-proxy allow-list built in `_get_client_identifier`. -/
def trustedProxies (ipAddr : String → Option String) (cfg : AuthProviderConfig) :
    List String :=
  (parse_csv_config cfg.oidc_trusted_proxy_ips).filterMap (parse_ip ipAddr)

/-- The header-scanning loop of `_get_client_identifier`: for each configured
header name in priority order, skip absent or empty headers, take the first
comma-separated value, and return it when it parses as an IP. -/
def findForwardedIp (ipAddr : String → Option String) (req : Request) :
    List String → Option String
  | [] => none
  | headerName :: rest =>
    match req.headers headerName with
    | none => findForwardedIp ipAddr req rest
    | some raw =>
      if raw = "" then findForwardedIp ipAddr req rest
      else
        match parse_ip ipAddr (pyStrip ((pySplitComma raw).headD "")) with
        | none => findForwardedIp ipAddr req rest
        | some parsed =>
          if parsed = "" then findForwardedIp ipAddr req rest else some parsed

/-- `_get_client_identifier`: direct peer address by default, `"unknown"`
when it is absent or unparseable, and a forwarded-for header value only when
the direct peer is a trusted proxy. -/
def get_client_identifier (ipAddr : String → Option String)
    (cfg : AuthProviderConfig) (req : Request) : String :=
  match req.clientHost with
  | none => "unknown"
  | some host =>
    match parse_ip ipAddr host with
    | none => "unknown"
    | some directIp =>
      if directIp = "" then "unknown"
      else if directIp ∈ trustedProxies ipAddr cfg then
        match findForwardedIp ipAddr req (parse_csv_config cfg.oidc_client_ip_headers) with
        | some parsed => parsed
        | none => directIp
      else directIp

/-! ## Rate limiter (`_enforce_oidc_rate_limit`) -/

/-- The HTTP 429 response data: the `Retry-After` header value. -/
structure RateLimited where
  retryAfter : Int
deriving DecidableEq

/-- `_enforce_oidc_rate_limit`: increment the fixed-window counter, set the
window TTL exactly on the first increment, and reject with 429 and
`Retry-After = max(ttl, 1)` when the post-increment count exceeds the
limit. -/
def enforce_oidc_rate_limit (ipAddr : String → Option String)
    (cfg : AuthProviderConfig) (cs : CounterStore) (req : Request)
    (action : String) (limit : Nat) : Option RateLimited × CounterStore :=
  let clientId := get_client_identifier ipAddr cfg req
  let key := RedisKeys.oidc_rate_limit action clientId
  let r := csIncr cs key
  let currentCount := r.1
  let cs2 := if currentCount = 1 then
      csExpire r.2 key cfg.oidc_rate_limit_window_seconds
    else r.2
  if currentCount > limit then
    (some ⟨max (csTTL cs2 key) 1⟩, cs2)
  else
    (none, cs2)

/-! ## Atomic consume of the authorization attempt (`_consume_oidc_auth_context`) -/

/-- The three HTTP 400 failures of the consume step. -/
inductive CallbackError
  | invalidState
  | invalidNonce
  | invalidPkce
deriving DecidableEq

/-- The `detail` string of each HTTP 400 consume failure. -/
def callbackErrorDetail : CallbackError → String
  | .invalidState => "Invalid or expired state"
  | .invalidNonce => "Invalid or expired nonce"
  | .invalidPkce => "Invalid or expired PKCE verifier"

/-- `_consume_oidc_auth_context`: one Redis transaction that checks the state
key, reads the nonce and PKCE verifier, and deletes all three keys; the
validation of the three read results happens after the transaction. -/
def consume_oidc_auth_context (kv : KVStore) (state : String) :
    Except CallbackError (String × String) × KVStore :=
  let stateKey := RedisKeys.oidc_state state
  let nonceKey := RedisKeys.oidc_nonce state
  let codeVerifierKey := RedisKeys.oidc_pkce_verifier state
  let stateValid := kvExists kv stateKey
  let nonce := kvGet kv nonceKey
  let codeVerifier := kvGet kv codeVerifierKey
  let kv2 := kvDelete (kvDelete (kvDelete kv stateKey) nonceKey) codeVerifierKey
  if !stateValid then (.error .invalidState, kv2)
  else if !pyTruthyStr nonce then (.error .invalidNonce, kv2)
  else if !pyTruthyStr codeVerifier then (.error .invalidPkce, kv2)
  else (.ok (nonce.getD "", codeVerifier.getD ""), kv2)

end Glean

namespace Glean

/-! ## OIDC provider (glean_core/auth/providers/oidc_provider.py) -/

/-- The fields of `urllib.parse.urlparse` the provider reads. -/
structure UrlParts where
  scheme : String
  netloc : String
  path : String

/-- The three required discovery-document endpoints. -/
structure OidcDiscoveryConfig where
  authorization_endpoint : String
  token_endpoint : String
  jwks_uri : String
deriving DecidableEq

/-- One JWKS entry: key id, declared algorithm, and (abstract) key material. -/
structure JwkKey where
  kid : Option String
  alg : Option String
  material : String
deriving DecidableEq

/-- A JSON Web Key Set. -/
structure Jwks where
  keys : List JwkKey
deriving DecidableEq

/-- The mutable state of an `OIDCProvider` instance.  Times are integral
readings of `time.monotonic()`. -/
structure OIDCProviderState where
  client_id : String
  client_secret : String
  issuer : String
  scopes : List String
  jwks_cache_ttl_seconds : Int
  oidc_config : Option OidcDiscoveryConfig
  jwks : Option Jwks
  jwks_cached_at : Option Int
deriving DecidableEq

/-- `ALLOWED_SIGNING_ALGORITHMS`. -/
def ALLOWED_SIGNING_ALGORITHMS : List String :=
  ["RS256", "RS384", "RS512", "ES256", "ES384", "ES512"]

/-- `_validate_https_url`: HTTPS scheme and a nonempty netloc. -/
def validate_https_url (up : String → UrlParts) (url : String) : Bool :=
  ((up url).scheme.toLower = "https") && !((up url).netloc = "")

/-- `_validate_same_domain`: both URLs absolute and same netloc
(case-insensitively). -/
def validate_same_domain (up : String → UrlParts) (referenceUrl targetUrl : String) :
    Bool :=
  !((up referenceUrl).netloc = "") && !((up targetUrl).netloc = "") &&
    ((up referenceUrl).netloc.toLower = (up targetUrl).netloc.toLower)

/-- `generate_pkce_pair`: the verifier is `secrets.token_urlsafe(32)` over
the given random bytes, and the challenge is the unpadded URL-safe base64 of
the SHA-256 digest (modelled by `sha256`) of the verifier's UTF-8 bytes. -/
def generate_pkce_pair (sha256 : List Nat → List Nat) (randomBytes : List Nat) :
    String × String :=
  let code_verifier := token_urlsafe randomBytes
  let challenge := base64urlEncode (sha256 (utf8Bytes code_verifier))
  let code_challenge := rstripEq challenge
  (code_verifier, code_challenge)

/-- `get_authorization_url`: fails when discovery is not loaded or the nonce
or code challenge is missing/empty; otherwise the authorization endpoint with
the urlencoded query, `_t` being `time.time_ns()`. -/
def get_authorization_url (p : OIDCProviderState) (state redirectUri : String)
    (nonce codeChallenge : Option String) (timeNs : Nat) : Except String String :=
  match p.oidc_config with
  | none => .error "OIDC config not loaded - call _get_oidc_config() first"
  | some oidcConfig =>
    if !pyTruthyStr nonce then
      .error "Nonce is required for OIDC authorization"
    else if !pyTruthyStr codeChallenge then
      .error "PKCE code_challenge is required for OIDC authorization"
    else
      .ok (oidcConfig.authorization_endpoint ++ "?" ++ urlencode
        [("client_id", p.client_id),
         ("redirect_uri", redirectUri),
         ("response_type", "code"),
         ("scope", String.intercalate " " p.scopes),
         ("state", state),
         ("nonce", nonce.getD ""),
         ("code_challenge", codeChallenge.getD ""),
         ("code_challenge_method", "S256"),
         ("_t", toString timeNs)])

/-- Failure modes of `_verify_id_token` / `_get_jwks` (each a `ValueError`
with the corresponding message in the source). -/
inductive VerifyError
  | missingKid
  | unsupportedHeaderAlgorithm
  | missingJwksUri
  | invalidJwksUri
  | jwksFetchFailed
  | noMatchingKey
  | undeterminedAlgorithm
  | unsupportedKeyAlgorithm
  | algorithmMismatch
  | tokenExpired
  | claimsValidationFailed
  | verificationFailed
  | nonceMismatch
  | issuedInFuture
  | notYetValid
deriving DecidableEq

/-- Exceptions of the external `jose` library, as caught by the source. -/
inductive JoseError
  | expiredSignature
  | claimsError
  | jwtError
  | otherError
deriving DecidableEq

/-- The `except` clauses at the end of `_verify_id_token`. -/
def mapJoseError : JoseError → VerifyError
  | .expiredSignature => .tokenExpired
  | .claimsError => .claimsValidationFailed
  | .jwtError => .verificationFailed
  | .otherError => .verificationFailed

/-- The decoded ID-token header fields the source reads. -/
structure JwtHeader where
  kid : Option String
  alg : Option String
deriving DecidableEq

/-- The decoded ID-token claims the source reads during verification. -/
structure IdTokenClaims where
  sub : Option String
  nonce : Option String
  iat : Option Int
  nbf : Option Int
  exp : Option Int
deriving DecidableEq

/-- Whether the single-slot JWKS cache is usable: a cached set exists and its
age is within `jwks_cache_ttl_seconds`. -/
def jwksCacheFresh (p : OIDCProviderState) (monoNow : Int) : Bool :=
  match p.jwks, p.jwks_cached_at with
  | some _, some cachedAt => monoNow - cachedAt ≤ p.jwks_cache_ttl_seconds
  | _, _ => false

/-- The fetch-and-replace path of `_get_jwks`: validate `jwks_uri`, perform
the network fetch (`fetchResult` models the HTTP GET plus JSON parsing), and
replace the whole cached set on success. -/
def fetchJwks (up : String → UrlParts) (p : OIDCProviderState)
    (oidcConfig : OidcDiscoveryConfig) (monoNow : Int)
    (fetchResult : Except Unit Jwks) : Except VerifyError Jwks × OIDCProviderState :=
  if oidcConfig.jwks_uri = "" then (.error .missingJwksUri, p)
  else if !validate_https_url up oidcConfig.jwks_uri then (.error .invalidJwksUri, p)
  else if !validate_same_domain up p.issuer oidcConfig.jwks_uri then
    (.error .invalidJwksUri, p)
  else
    match fetchResult with
    | .error _ => (.error .jwksFetchFailed, p)
    | .ok jwks =>
      (.ok jwks, { p with jwks := some jwks, jwks_cached_at := some monoNow })

/-- `_get_jwks`: return the cached set when it exists and its age is within
the TTL; otherwise fetch and replace the whole cache. -/
def get_jwks (up : String → UrlParts) (p : OIDCProviderState)
    (oidcConfig : OidcDiscoveryConfig) (monoNow : Int)
    (fetchResult : Except Unit Jwks) : Except VerifyError Jwks × OIDCProviderState :=
  match p.jwks, p.jwks_cached_at with
  | some jwks, some cachedAt =>
    if monoNow - cachedAt ≤ p.jwks_cache_ttl_seconds then (.ok jwks, p)
    else fetchJwks up p oidcConfig monoNow fetchResult
  | _, _ => fetchJwks up p oidcConfig monoNow fetchResult

/-- `_verify_id_token`.  `headerResult` models `jwt.get_unverified_header`,
`fetchResult` the JWKS network fetch, and `joseDecode` the combination of
`jwk.construct` and `jwt.decode` (signature, `iss`, `aud`, `exp`, `iat`,
`nbf` validation against the configured issuer/client id), as a function of
the selected signing key, the selected algorithm, and the access token.
`monoNow` is the monotonic clock (JWKS cache), `wallNow` the wall clock
(`datetime.now(UTC).timestamp()`). -/
def verify_id_token (up : String → UrlParts) (p : OIDCProviderState)
    (oidcConfig : OidcDiscoveryConfig)
    (headerResult : Except JoseError JwtHeader)
    (fetchResult : Except Unit Jwks) (monoNow : Int)
    (joseDecode : JwkKey → String → Option String → Except JoseError IdTokenClaims)
    (nonce : String) (accessToken : Option String) (wallNow : Int) :
    Except VerifyError IdTokenClaims × OIDCProviderState :=
  match headerResult with
  | .error e => (.error (mapJoseError e), p)
  | .ok header =>
    if !pyTruthyStr header.kid then (.error .missingKid, p)
    else if pyTruthyStr header.alg
        && !(ALLOWED_SIGNING_ALGORITHMS.contains (header.alg.getD "")) then
      (.error .unsupportedHeaderAlgorithm, p)
    else
      match get_jwks up p oidcConfig monoNow fetchResult with
      | (.error e, p2) => (.error e, p2)
      | (.ok jwks, p2) =>
        match jwks.keys.find? (fun key => key.kid == header.kid) with
        | none => (.error .noMatchingKey, p2)
        | some signingKey =>
          let keyAlg := pyOrStr signingKey.alg header.alg
          if !pyTruthyStr keyAlg then (.error .undeterminedAlgorithm, p2)
          else if !(ALLOWED_SIGNING_ALGORITHMS.contains (keyAlg.getD "")) then
            (.error .unsupportedKeyAlgorithm, p2)
          else if pyTruthyStr header.alg && !(keyAlg == header.alg) then
            (.error .algorithmMismatch, p2)
          else
            match joseDecode signingKey (keyAlg.getD "") accessToken with
            | .error e => (.error (mapJoseError e), p2)
            | .ok claims =>
              if !(claims.nonce == some nonce) then (.error .nonceMismatch, p2)
              else if pyTruthyInt claims.iat
                  && decide (claims.iat.getD 0 > wallNow + 60) then
                (.error .issuedInFuture, p2)
              else if pyTruthyInt claims.nbf
                  && decide (wallNow < claims.nbf.getD 0 - 60) then
                (.error .notYetValid, p2)
              else (.ok claims, p2)

end Glean

namespace Glean

/-! ## HTTP handlers (routers/auth.py) -/

/-- Failure responses of `GET /oauth/oidc/authorize`. -/
inductive AuthorizeError
  | notFound
  | tooManyRequests (retryAfter : Int)
  | internalServerError
deriving DecidableEq

/-- Outcome of the authorize handler: the HTTP response (on success, the
JSON body `{authorization_url, state}`) plus the resulting stores. -/
structure AuthorizeOutcome where
  response : Except AuthorizeError (String × String)
  kv : KVStore
  counters : CounterStore

/-- The provider-config entry `auth_service.provider_configs["oidc"]`, as
read by the router. -/
structure ProviderConfigEntry where
  redirect_uri : String

/-- `oidc_authorize`: the authorize endpoint.  `prepared` models
`AuthProviderFactory.create` followed by `provider.prepare()` (any exception
becomes HTTP 500); `stateBytes`, `nonceBytes`, `pkceBytes` are the fresh
randomness of the two `token_urlsafe(32)` calls and of
`generate_pkce_pair`; `timeNs` is `time.time_ns()`. -/
def oidc_authorize (ipAddr : String → Option String) (cfg : AuthProviderConfig)
    (providerConfig : Option ProviderConfigEntry)
    (prepared : Except Unit OIDCProviderState)
    (sha256 : List Nat → List Nat)
    (stateBytes nonceBytes pkceBytes : List Nat) (timeNs : Nat)
    (req : Request) (kv : KVStore) (cs : CounterStore) : AuthorizeOutcome :=
  if !cfg.oidc_enabled then ⟨.error .notFound, kv, cs⟩
  else
    match enforce_oidc_rate_limit ipAddr cfg cs req "authorize"
        cfg.oidc_authorize_rate_limit with
    | (some limited, cs2) => ⟨.error (.tooManyRequests limited.retryAfter), kv, cs2⟩
    | (none, cs2) =>
      match providerConfig with
      | none => ⟨.error .internalServerError, kv, cs2⟩
      | some pc =>
        match prepared with
        | .error _ => ⟨.error .internalServerError, kv, cs2⟩
        | .ok provider =>
          let state := token_urlsafe stateBytes
          let nonce := token_urlsafe nonceBytes
          let pair := generate_pkce_pair sha256 pkceBytes
          let code_verifier := pair.1
          let code_challenge := pair.2
          let kv1 := kvSetex kv (RedisKeys.oidc_state state)
            RedisKeys.OIDC_STATE_TTL "1"
          let kv2 := kvSetex kv1 (RedisKeys.oidc_nonce state)
            RedisKeys.OIDC_NONCE_TTL nonce
          let kv3 := kvSetex kv2 (RedisKeys.oidc_pkce_verifier state)
            RedisKeys.OIDC_PKCE_VERIFIER_TTL code_verifier
          match get_authorization_url provider state pc.redirect_uri
              (some nonce) (some code_challenge) timeNs with
          | .error _ => ⟨.error .internalServerError, kv3, cs2⟩
          | .ok authUrl =>
            if authUrl = "" then ⟨.error .internalServerError, kv3, cs2⟩
            else ⟨.ok (authUrl, state), kv3, cs2⟩

/-- Failure responses of `POST /oauth/oidc/callback`. -/
inductive CallbackHttpError
  | notFound
  | tooManyRequests (retryAfter : Int)
  | badRequest (e : CallbackError)
  | internalServerError
  | unauthorized
deriving DecidableEq

/-- The success payload of the callback: the user profile and token pair
returned by `auth_service.login_with_provider` (external), rendered
abstractly. -/
structure AuthPayload where
  user : String
  tokens : String
deriving DecidableEq

/-- Outcome of the callback handler. -/
structure CallbackOutcome where
  response : Except CallbackHttpError AuthPayload
  kv : KVStore
  counters : CounterStore

/-- `oidc_callback`: the callback endpoint.  `login` models
`auth_service.login_with_provider("oidc", credentials)` as a function of the
credentials `(code, redirect_uri, nonce, code_verifier)`; a `ValueError`
becomes the generic HTTP 401. -/
def oidc_callback (ipAddr : String → Option String) (cfg : AuthProviderConfig)
    (providerConfig : Option ProviderConfigEntry)
    (login : String → String → String → String → Except Unit AuthPayload)
    (req : Request) (code state : String) (kv : KVStore) (cs : CounterStore) :
    CallbackOutcome :=
  if !cfg.oidc_enabled then ⟨.error .notFound, kv, cs⟩
  else
    match enforce_oidc_rate_limit ipAddr cfg cs req "callback"
        cfg.oidc_callback_rate_limit with
    | (some limited, cs2) => ⟨.error (.tooManyRequests limited.retryAfter), kv, cs2⟩
    | (none, cs2) =>
      match consume_oidc_auth_context kv state with
      | (.error e, kv2) => ⟨.error (.badRequest e), kv2, cs2⟩
      | (.ok nv, kv2) =>
        match providerConfig with
        | none => ⟨.error .internalServerError, kv2, cs2⟩
        | some pc =>
          match login code pc.redirect_uri nv.1 nv.2 with
          | .ok payload => ⟨.ok payload, kv2, cs2⟩
          | .error _ => ⟨.error .unauthorized, kv2, cs2⟩

end Glean

namespace Glean

/-- Whether an `Except` is a success. -/
def exceptIsOk {e a : Type} : Except e a → Bool
  | .ok _ => true
  | .error _ => false

end Glean

deriving instance DecidableEq for Except
namespace Glean

/-! ## Helper lemmas -/

theorem b64Char_ne_pad (n : Nat) : b64Char n ≠ '=' := by
  have hlt : n % 64 < 64 := Nat.mod_lt _ (by decide)
  have hall : ∀ m, m < 64 → b64UrlAlphabet.getD m 'A' ≠ '=' := by decide
  simpa [b64Char] using hall (n % 64) hlt

theorem base64EncChars_cons (a : Nat) (l : List Nat) :
    ∃ x tail, base64EncChars (a :: l) = b64Char x :: tail := by
  match l with
  | [] => exact ⟨a / 4, _, rfl⟩
  | [b] => exact ⟨a / 4, _, rfl⟩
  | b :: c :: rest => exact ⟨a / 4, _, rfl⟩

theorem rstripEq_mk_cons_ne_empty (c : Char) (l : List Char) (hc : c ≠ '=') :
    rstripEq ⟨c :: l⟩ ≠ "" := by
  intro h
  have hd : ((c :: l).reverse.dropWhile (fun x => x = '=')).reverse = [] := by
    simpa [rstripEq] using congrArg String.data h
  rw [List.reverse_eq_nil_iff, List.dropWhile_eq_nil_iff] at hd
  exact hc (by simpa using hd c (by simp))

theorem token_urlsafe_ne_empty (bytes : List Nat) (h : bytes ≠ []) :
    token_urlsafe bytes ≠ "" := by
  match bytes with
  | [] => exact absurd rfl h
  | a :: l =>
    obtain ⟨x, tail, hx⟩ := base64EncChars_cons a l
    show rstripEq (base64urlEncode (a :: l)) ≠ ""
    rw [base64urlEncode, hx]
    exact rstripEq_mk_cons_ne_empty _ _ (b64Char_ne_pad x)

theorem oidc_keys_pairwise_ne (s : String) :
    RedisKeys.oidc_state s ≠ RedisKeys.oidc_nonce s ∧
    RedisKeys.oidc_state s ≠ RedisKeys.oidc_pkce_verifier s ∧
    RedisKeys.oidc_nonce s ≠ RedisKeys.oidc_pkce_verifier s := by
  refine ⟨?_, ?_, ?_⟩ <;> intro h <;>
    · have hd := congrArg String.data h
      simp [RedisKeys.oidc_state, RedisKeys.oidc_nonce, RedisKeys.oidc_pkce_verifier,
        String.data_append] at hd

theorem consume_snd (kv : KVStore) (s : String) :
    (consume_oidc_auth_context kv s).2 =
      kvDelete (kvDelete (kvDelete kv (RedisKeys.oidc_state s))
        (RedisKeys.oidc_nonce s)) (RedisKeys.oidc_pkce_verifier s) := by
  simp only [consume_oidc_auth_context, apply_ite Prod.snd, ite_self]

theorem consume_deletes_all (kv : KVStore) (s : String) :
    (consume_oidc_auth_context kv s).2 (RedisKeys.oidc_state s) = none ∧
    (consume_oidc_auth_context kv s).2 (RedisKeys.oidc_nonce s) = none ∧
    (consume_oidc_auth_context kv s).2 (RedisKeys.oidc_pkce_verifier s) = none := by
  obtain ⟨h1, h2, h3⟩ := oidc_keys_pairwise_ne s
  rw [consume_snd]
  refine ⟨?_, ?_, ?_⟩ <;>
    simp [kvDelete, h1, h2, h3, Ne.symm h2, Ne.symm h3, Ne.symm h1]

theorem consume_invalid_of_no_state (kv : KVStore) (s : String)
    (h : kv (RedisKeys.oidc_state s) = none) :
    (consume_oidc_auth_context kv s).1 = .error .invalidState := by
  simp [consume_oidc_auth_context, kvExists, h]

theorem consume_after_consume (kv : KVStore) (s : String) :
    (consume_oidc_auth_context (consume_oidc_auth_context kv s).2 s).1 =
      .error .invalidState :=
  consume_invalid_of_no_state _ _ (consume_deletes_all kv s).1

theorem enforce_rate_limit_fst_none (ipAddr : String → Option String)
    (cfg : AuthProviderConfig) (cs : CounterStore) (req : Request)
    (action : String) (limit : Nat)
    (h : (csIncr cs (RedisKeys.oidc_rate_limit action
        (get_client_identifier ipAddr cfg req))).1 ≤ limit) :
    (enforce_oidc_rate_limit ipAddr cfg cs req action limit).1 = none := by
  simp only [enforce_oidc_rate_limit, apply_ite Prod.fst]
  rw [if_neg (Nat.not_lt.mpr h)]

theorem enforce_rate_limit_pass (ipAddr : String → Option String)
    (cfg : AuthProviderConfig) (cs : CounterStore) (req : Request)
    (action : String) (limit : Nat)
    (h : (csIncr cs (RedisKeys.oidc_rate_limit action
        (get_client_identifier ipAddr cfg req))).1 ≤ limit) :
    enforce_oidc_rate_limit ipAddr cfg cs req action limit =
      (none, (enforce_oidc_rate_limit ipAddr cfg cs req action limit).2) := by
  rw [← enforce_rate_limit_fst_none ipAddr cfg cs req action limit h]

/-! ## Claim theorems -/

/-- C2: at most one callback consume of a state value succeeds: the
consume is one atomic store transaction that deletes all three keys, so after
any consume of `s`, a later callback presenting the same `s` fails with HTTP
400 "Invalid or expired state"; two consumes of the same `s` never both
succeed. -/
theorem oidc_state_single_use
    (kv : KVStore) (s : String) (ipAddr : String → Option String)
    (cfg : AuthProviderConfig) (providerConfig : Option ProviderConfigEntry)
    (login : String → String → String → String → Except Unit AuthPayload)
    (req : Request) (code : String) (cs : CounterStore)
    (henabled : cfg.oidc_enabled = true)
    (hrl : (csIncr cs (RedisKeys.oidc_rate_limit "callback"
        (get_client_identifier ipAddr cfg req))).1 ≤ cfg.oidc_callback_rate_limit) :
    (consume_oidc_auth_context (consume_oidc_auth_context kv s).2 s).1 =
      .error .invalidState ∧
    ¬(exceptIsOk (consume_oidc_auth_context kv s).1 = true ∧
      exceptIsOk (consume_oidc_auth_context (consume_oidc_auth_context kv s).2 s).1 = true) ∧
    (oidc_callback ipAddr cfg providerConfig login req code s
        (consume_oidc_auth_context kv s).2 cs).response =
      .error (.badRequest .invalidState) ∧
    callbackErrorDetail .invalidState = "Invalid or expired state" := by
  have hsecond := consume_after_consume kv s
  refine ⟨hsecond, ?_, ?_, rfl⟩
  · rintro ⟨-, hbad⟩
    rw [hsecond] at hbad
    simp [exceptIsOk] at hbad
  · obtain ⟨cs2, hpass⟩ : ∃ cs2, enforce_oidc_rate_limit ipAddr cfg cs req "callback"
        cfg.oidc_callback_rate_limit = (none, cs2) :=
      ⟨_, enforce_rate_limit_pass ipAddr cfg cs req "callback"
        cfg.oidc_callback_rate_limit hrl⟩
    obtain ⟨r, kv3, hc⟩ : ∃ r kv3,
        consume_oidc_auth_context (consume_oidc_auth_context kv s).2 s = (r, kv3) :=
      ⟨_, _, rfl⟩
    have hr : r = .error .invalidState := by
      rw [← hsecond, hc]
    subst hr
    simp only [oidc_callback, henabled, Bool.not_true, Bool.false_eq_true, if_false,
      hpass, hc]

/-- Witness for `oidc_state_single_use`: a store holding one full attempt,
consumed twice. -/
theorem oidc_state_single_use_witness :
    (csIncr (fun _ => none) (RedisKeys.oidc_rate_limit "callback"
        (get_client_identifier (fun _ => none)
          ⟨true, 60, 10, 5, "", ""⟩ ⟨none, fun _ => none⟩))).1 ≤ 5 ∧
    (consume_oidc_auth_context (consume_oidc_auth_context
        (kvSetex (fun _ => none) (RedisKeys.oidc_state "s1") 300 "1") "s1").2 "s1").1 =
      .error .invalidState := by
  refine ⟨by decide, ?_⟩
  exact (oidc_state_single_use
    (kvSetex (fun _ => none) (RedisKeys.oidc_state "s1") 300 "1") "s1"
    (fun _ => none) ⟨true, 60, 10, 5, "", ""⟩ none
    (fun _ _ _ _ => .error ()) ⟨none, fun _ => none⟩ "c" (fun _ => none)
    rfl (by decide)).1

/-- C9: a single execution of the callback's consume transaction for a
state `s` — whatever its outcome — leaves none of the three keys (state
marker, nonce-by-state, PKCE-verifier-by-state) in the transient store: the
transaction deletes all three keys unconditionally. -/
theorem consume_wipes_all_three_keys (kv : KVStore) (s : String) :
    (consume_oidc_auth_context kv s).2 (RedisKeys.oidc_state s) = none ∧
    (consume_oidc_auth_context kv s).2 (RedisKeys.oidc_nonce s) = none ∧
    (consume_oidc_auth_context kv s).2 (RedisKeys.oidc_pkce_verifier s) = none :=
  consume_deletes_all kv s

/-- C8: the PKCE challenge is the unpadded URL-safe base64 of the SHA-256
digest of the verifier's UTF-8 bytes (S256), so it re-derives from the
verifier; the verifier comes from 32 bytes of randomness (so at least 32). -/
theorem pkce_pair_round_trip (sha256 : List Nat → List Nat)
    (randomBytes : List Nat) (h : randomBytes.length = 32) :
    (generate_pkce_pair sha256 randomBytes).2 =
      base64urlEncodeNopad
        (sha256 (utf8Bytes (generate_pkce_pair sha256 randomBytes).1)) ∧
    32 ≤ randomBytes.length :=
  ⟨rfl, le_of_eq h.symm⟩

/-- Witness for `pkce_pair_round_trip` at 32 concrete random bytes. -/
theorem pkce_pair_round_trip_witness :
    (List.replicate 32 7).length = 32 ∧
    (generate_pkce_pair (fun l => l) (List.replicate 32 7)).2 =
      base64urlEncodeNopad
        ((fun l => l)
          (utf8Bytes (generate_pkce_pair (fun l => l) (List.replicate 32 7)).1)) :=
  ⟨by decide, (pkce_pair_round_trip (fun l => l) (List.replicate 32 7) (by decide)).1⟩

/-- C10: when the request has no peer address or it does not parse as an
IP, the rate-limit client identifier is the constant "unknown" — independent
of headers and of the trusted-proxy configuration — so all such requests
share one rate-limit counter per action. -/
theorem unknown_client_identifier (ipAddr : String → Option String)
    (cfg cfg2 : AuthProviderConfig) (host : Option String)
    (h1 h2 : String → Option String) (action : String)
    (hbad : pyTruthyStr (host.bind (parse_ip ipAddr)) = false) :
    get_client_identifier ipAddr cfg ⟨host, h1⟩ = "unknown" ∧
    get_client_identifier ipAddr cfg2 ⟨host, h2⟩ = "unknown" ∧
    RedisKeys.oidc_rate_limit action (get_client_identifier ipAddr cfg ⟨host, h1⟩) =
      RedisKeys.oidc_rate_limit action (get_client_identifier ipAddr cfg2 ⟨host, h2⟩) := by
  have hu : ∀ (c : AuthProviderConfig) (hh : String → Option String),
      get_client_identifier ipAddr c ⟨host, hh⟩ = "unknown" := by
    intro c hh
    unfold get_client_identifier
    match h : host with
    | none => rfl
    | some hostv =>
      simp only
      match hp : parse_ip ipAddr hostv with
      | none => rfl
      | some directIp =>
        simp only
        rw [if_pos]
        subst h
        simp [hp, pyTruthyStr] at hbad
        exact hbad
  refine ⟨hu cfg h1, hu cfg2 h2, ?_⟩
  rw [hu cfg h1, hu cfg2 h2]

/-- Witness for `unknown_client_identifier`: an unparseable peer address. -/
theorem unknown_client_identifier_witness :
    pyTruthyStr ((some "not-an-ip").bind (parse_ip (fun _ => none))) = false ∧
    get_client_identifier (fun _ => none)
      ⟨true, 60, 10, 5, "", "x-real-ip"⟩ ⟨some "not-an-ip", fun _ => none⟩ = "unknown" := by
  refine ⟨by decide, ?_⟩
  exact (unknown_client_identifier (fun _ => none) ⟨true, 60, 10, 5, "", "x-real-ip"⟩
    ⟨true, 60, 10, 5, "", "x-real-ip"⟩ (some "not-an-ip") (fun _ => none) (fun _ => none)
    "authorize" (by decide)).1

/-- C7: a request whose direct peer is not in the trusted-proxy
allow-list is identified by its direct peer address, independently of all
forwarded-for-style headers; only a trusted-proxy peer gets the
header-derived identifier (first CSV value of the first configured header
that is present and parses as an IP). -/
theorem client_identifier_trusted_proxy_only (ipAddr : String → Option String)
    (cfg : AuthProviderConfig) (host : Option String)
    (h1 h2 : String → Option String) (d : String)
    (hd : host.bind (parse_ip ipAddr) = some d) (hne : d ≠ "") :
    (d ∉ trustedProxies ipAddr cfg →
      get_client_identifier ipAddr cfg ⟨host, h1⟩ = d ∧
      get_client_identifier ipAddr cfg ⟨host, h1⟩ =
        get_client_identifier ipAddr cfg ⟨host, h2⟩) ∧
    (d ∈ trustedProxies ipAddr cfg →
      get_client_identifier ipAddr cfg ⟨host, h1⟩ =
        (findForwardedIp ipAddr ⟨host, h1⟩
          (parse_csv_config cfg.oidc_client_ip_headers)).getD d) := by
  obtain ⟨hostv, hhost⟩ : ∃ hostv, host = some hostv := by
    cases host with
    | none => exact Option.noConfusion hd
    | some hostv => exact ⟨hostv, rfl⟩
  subst hhost
  have hd2 : parse_ip ipAddr hostv = some d := hd
  have hu : ∀ (hh : String → Option String),
      get_client_identifier ipAddr cfg ⟨some hostv, hh⟩ =
        if d ∈ trustedProxies ipAddr cfg then
          (findForwardedIp ipAddr ⟨some hostv, hh⟩
            (parse_csv_config cfg.oidc_client_ip_headers)).getD d
        else d := by
    intro hh
    unfold get_client_identifier
    simp only [hd2, if_neg hne]
    split
    · cases findForwardedIp ipAddr ⟨some hostv, hh⟩
        (parse_csv_config cfg.oidc_client_ip_headers) <;> rfl
    · rfl
  constructor
  · intro hnot
    rw [hu h1, hu h2, if_neg hnot, if_neg hnot]
    exact ⟨rfl, rfl⟩
  · intro hmem
    rw [hu h1, if_pos hmem]

/-- Witness for `client_identifier_trusted_proxy_only`: an untrusted peer
with a spoofed forwarded-for header is identified by its peer address. -/
theorem client_identifier_trusted_proxy_only_witness :
    ((some "9.9.9.9").bind
        (parse_ip (fun v => if v = "9.9.9.9" then some "9.9.9.9" else none)) =
      some "9.9.9.9" ∧
     "9.9.9.9" ∉ trustedProxies (fun v => if v = "9.9.9.9" then some "9.9.9.9" else none)
       ⟨true, 60, 10, 5, "10.0.0.1", "x-real-ip"⟩) ∧
    get_client_identifier (fun v => if v = "9.9.9.9" then some "9.9.9.9" else none)
      ⟨true, 60, 10, 5, "10.0.0.1", "x-real-ip"⟩
      ⟨some "9.9.9.9", fun h => if h = "x-real-ip" then some "1.2.3.4" else none⟩ =
      "9.9.9.9" := by
  refine ⟨⟨by decide, by decide⟩, ?_⟩
  exact ((client_identifier_trusted_proxy_only
    (fun v => if v = "9.9.9.9" then some "9.9.9.9" else none)
    ⟨true, 60, 10, 5, "10.0.0.1", "x-real-ip"⟩ (some "9.9.9.9")
    (fun h => if h = "x-real-ip" then some "1.2.3.4" else none)
    (fun h => if h = "x-real-ip" then some "1.2.3.4" else none)
    "9.9.9.9" (by decide) (by decide)).1 (by decide)).1

end Glean
namespace Glean

/-- C6: each rate-limit check increments the fixed-window counter; the
expiry is set to the window length exactly on the first increment; the check
fails iff the post-increment count strictly exceeds the limit, and a failure
carries `Retry-After = max(remaining TTL, 1)`, hence at least 1. -/
theorem rate_limit_fixed_window (ipAddr : String → Option String)
    (cfg : AuthProviderConfig) (cs : CounterStore) (req : Request)
    (action : String) (limit : Nat) :
    let key := RedisKeys.oidc_rate_limit action (get_client_identifier ipAddr cfg req)
    let count := (csIncr cs key).1
    let out := enforce_oidc_rate_limit ipAddr cfg cs req action limit
    count = (match cs key with | none => 0 | some ct => ct.1) + 1 ∧
    (out.2 key).map Prod.fst = some count ∧
    (count = 1 → (out.2 key).bind Prod.snd = some cfg.oidc_rate_limit_window_seconds) ∧
    (count ≠ 1 → (out.2 key).bind Prod.snd = (cs key).bind Prod.snd) ∧
    (out.1.isSome ↔ count > limit) ∧
    (∀ rl, out.1 = some rl →
      rl.retryAfter = max (csTTL out.2 key) 1 ∧ 1 ≤ rl.retryAfter) := by
  intro key count out
  match h : cs key with
  | none =>
    have hcount : count = 1 := by
      simp only [count, csIncr, h]
    have hout : out = (if 1 > limit then
        (some ⟨max (csTTL (csExpire (fun k => if k = key then some (1, none) else cs k)
          key cfg.oidc_rate_limit_window_seconds) key) 1⟩,
          csExpire (fun k => if k = key then some (1, none) else cs k)
            key cfg.oidc_rate_limit_window_seconds)
      else (none, csExpire (fun k => if k = key then some (1, none) else cs k)
        key cfg.oidc_rate_limit_window_seconds)) := by
      simp only [out, enforce_oidc_rate_limit, csIncr, h, eq_self_iff_true, if_true]
    have hcs2 : (csExpire (fun k => if k = key then some (1, none) else cs k)
        key cfg.oidc_rate_limit_window_seconds) key =
        some (1, some cfg.oidc_rate_limit_window_seconds) := by
      simp [csExpire]
    refine ⟨by rw [hcount], ?_, ?_, ?_, ?_, ?_⟩
    · rw [hout, hcount]
      rcases Nat.lt_or_ge limit 1 with hl | hl
      · rw [if_pos hl]
        simp [hcs2]
      · rw [if_neg (Nat.not_lt.mpr hl)]
        simp [hcs2]
    · intro _
      rw [hout]
      rcases Nat.lt_or_ge limit 1 with hl | hl
      · rw [if_pos hl]; simp [hcs2]
      · rw [if_neg (Nat.not_lt.mpr hl)]; simp [hcs2]
    · intro hne
      exact absurd hcount hne
    · rw [hout, hcount]
      rcases Nat.lt_or_ge limit 1 with hl | hl
      · rw [if_pos hl]; simpa using hl
      · rw [if_neg (Nat.not_lt.mpr hl)]
        simpa using Nat.not_lt.mpr hl
    · intro rl hrl
      rw [hout] at hrl
      rcases Nat.lt_or_ge limit 1 with hl | hl
      · rw [if_pos hl] at hrl
        simp only [Option.some.injEq] at hrl
        subst hrl
        constructor
        · rw [hout, if_pos hl]
        · exact le_max_right _ _
      · rw [if_neg (Nat.not_lt.mpr hl)] at hrl
        exact absurd hrl (by simp)
  | some ct =>
    obtain ⟨c, t⟩ := ct
    have hcount : count = c + 1 := by
      simp only [count, csIncr, h]
    by_cases hc : c = 0
    · subst hc
      have hout : out = (if 1 > limit then
          (some ⟨max (csTTL (csExpire (fun k => if k = key then some (1, t) else cs k)
            key cfg.oidc_rate_limit_window_seconds) key) 1⟩,
            csExpire (fun k => if k = key then some (1, t) else cs k)
              key cfg.oidc_rate_limit_window_seconds)
        else (none, csExpire (fun k => if k = key then some (1, t) else cs k)
          key cfg.oidc_rate_limit_window_seconds)) := by
        simp only [out, enforce_oidc_rate_limit, csIncr, h, eq_self_iff_true, if_true,
          Nat.zero_add]
      have hcs2 : (csExpire (fun k => if k = key then some (1, t) else cs k)
          key cfg.oidc_rate_limit_window_seconds) key =
          some (1, some cfg.oidc_rate_limit_window_seconds) := by
        simp [csExpire]
      refine ⟨by rw [hcount], ?_, ?_, ?_, ?_, ?_⟩
      · rw [hout, hcount]
        rcases Nat.lt_or_ge limit 1 with hl | hl
        · rw [if_pos hl]; simp [hcs2]
        · rw [if_neg (Nat.not_lt.mpr hl)]; simp [hcs2]
      · intro _
        rw [hout]
        rcases Nat.lt_or_ge limit 1 with hl | hl
        · rw [if_pos hl]; simp [hcs2]
        · rw [if_neg (Nat.not_lt.mpr hl)]; simp [hcs2]
      · intro hne
        exact absurd hcount hne
      · rw [hout, hcount]
        rcases Nat.lt_or_ge limit 1 with hl | hl
        · rw [if_pos hl]; simpa using hl
        · rw [if_neg (Nat.not_lt.mpr hl)]
          simpa using Nat.not_lt.mpr hl
      · intro rl hrl
        rw [hout] at hrl
        rcases Nat.lt_or_ge limit 1 with hl | hl
        · rw [if_pos hl] at hrl
          simp only [Option.some.injEq] at hrl
          subst hrl
          constructor
          · rw [hout, if_pos hl]
          · exact le_max_right _ _
        · rw [if_neg (Nat.not_lt.mpr hl)] at hrl
          exact absurd hrl (by simp)
    · have hne1 : ¬(c + 1 = 1) := by omega
      have hout : out = (if c + 1 > limit then
          (some ⟨max (csTTL (fun k => if k = key then some (c + 1, t) else cs k) key) 1⟩,
            (fun k => if k = key then some (c + 1, t) else cs k))
        else (none, (fun k => if k = key then some (c + 1, t) else cs k))) := by
        simp only [out, enforce_oidc_rate_limit, csIncr, h, if_neg hne1]
      refine ⟨by rw [hcount], ?_, ?_, ?_, ?_, ?_⟩
      · rw [hout, hcount]
        rcases Nat.lt_or_ge limit (c + 1) with hl | hl
        · rw [if_pos hl]; simp
        · rw [if_neg (Nat.not_lt.mpr hl)]; simp
      · intro h1
        rw [hcount] at h1
        exact absurd h1 hne1
      · intro _
        rw [hout]
        rcases Nat.lt_or_ge limit (c + 1) with hl | hl
        · rw [if_pos hl]; simp [h]
        · rw [if_neg (Nat.not_lt.mpr hl)]; simp [h]
      · rw [hout, hcount]
        rcases Nat.lt_or_ge limit (c + 1) with hl | hl
        · rw [if_pos hl]; simpa using hl
        · rw [if_neg (Nat.not_lt.mpr hl)]
          simpa using Nat.not_lt.mpr hl
      · intro rl hrl
        rw [hout] at hrl
        rcases Nat.lt_or_ge limit (c + 1) with hl | hl
        · rw [if_pos hl] at hrl
          simp only [Option.some.injEq] at hrl
          subst hrl
          constructor
          · rw [hout, if_pos hl]
          · exact le_max_right _ _
        · rw [if_neg (Nat.not_lt.mpr hl)] at hrl
          exact absurd hrl (by simp)

end Glean
namespace Glean

/-- C3: an ID token whose header declares `alg` `none` or an HMAC
algorithm always fails verification, whatever JWKS material is supplied;
more generally verification succeeds only when the selected signing
algorithm (the matched key's, falling back to the header's) is in the
allow-list and, when the header declares one, agrees with it; a declared
header algorithm different from the matched key's declared algorithm always
fails. -/
theorem id_token_algorithm_allowlist (up : String → UrlParts)
    (p : OIDCProviderState) (oidcConfig : OidcDiscoveryConfig)
    (hdr : JwtHeader) (fetchResult : Except Unit Jwks) (monoNow : Int)
    (joseDecode : JwkKey → String → Option String → Except JoseError IdTokenClaims)
    (nonce : String) (accessToken : Option String) (wallNow : Int) :
    ((∃ a, hdr.alg = some a ∧ a ∈ ["none", "HS256", "HS384", "HS512"]) →
      exceptIsOk (verify_id_token up p oidcConfig (.ok hdr) fetchResult monoNow
        joseDecode nonce accessToken wallNow).1 = false) ∧
    (∀ claims, (verify_id_token up p oidcConfig (.ok hdr) fetchResult monoNow
        joseDecode nonce accessToken wallNow).1 = .ok claims →
      ∃ jw signingKey keyAlg,
        (get_jwks up p oidcConfig monoNow fetchResult).1 = .ok jw ∧
        jw.keys.find? (fun key => key.kid == hdr.kid) = some signingKey ∧
        pyOrStr signingKey.alg hdr.alg = some keyAlg ∧
        keyAlg ∈ ALLOWED_SIGNING_ALGORITHMS ∧
        (∀ a, hdr.alg = some a → a ≠ "" → keyAlg = a)) ∧
    (∀ a, hdr.alg = some a → a ≠ "" →
      ∀ jw signingKey ka,
        (get_jwks up p oidcConfig monoNow fetchResult).1 = .ok jw →
        jw.keys.find? (fun key => key.kid == hdr.kid) = some signingKey →
        signingKey.alg = some ka → ka ≠ "" → ka ≠ a →
        exceptIsOk (verify_id_token up p oidcConfig (.ok hdr) fetchResult monoNow
          joseDecode nonce accessToken wallNow).1 = false) := by
  refine ⟨?_, ?_, ?_⟩
  · rintro ⟨a, ha, hmem⟩
    simp only [verify_id_token]
    split
    · rfl
    · rw [if_pos]
      · rfl
      · rw [ha]
        simp only [List.mem_cons, List.not_mem_nil, or_false] at hmem
        rcases hmem with h | h | h | h <;> subst h <;> decide
  · intro claims h
    simp only [verify_id_token] at h
    split at h
    · exact absurd h (by simp)
    · split at h
      · exact absurd h (by simp)
      · split at h
        · exact absurd h (by simp)
        · rename_i jw p2 hjwks
          split at h
          · exact absurd h (by simp)
          · rename_i signingKey hfind
            split at h
            · exact absurd h (by simp)
            · split at h
              · exact absurd h (by simp)
              · rename_i htruthy hallowed
                rcases hk : pyOrStr signingKey.alg hdr.alg with _ | ka
                · rw [hk] at htruthy
                  simp [pyTruthyStr] at htruthy
                · refine ⟨jw, signingKey, ka, by rw [hjwks], hfind, hk, ?_, ?_⟩
                  · rw [hk] at hallowed
                    simpa using hallowed
                  · intro a haeq hane
                    split at h
                    · exact absurd h (by simp)
                    · rename_i hmatch
                      rw [hk, haeq] at hmatch
                      simpa [pyTruthyStr, hane] using hmatch
  · intro a ha hane jw signingKey ka hjwks hfind hka hkane hkna
    have hjwks2 : get_jwks up p oidcConfig monoNow fetchResult =
        (.ok jw, (get_jwks up p oidcConfig monoNow fetchResult).2) := by
      rw [← hjwks]
    simp only [verify_id_token]
    split
    · rfl
    · split
      · rfl
      · rw [hjwks2]
        by_cases hcon : ka ∈ ALLOWED_SIGNING_ALGORITHMS
        · simp [hfind, hka, ha, pyOrStr, pyTruthyStr, hane, hkane, hkna, hcon, exceptIsOk]
        · simp [hfind, hka, ha, pyOrStr, pyTruthyStr, hane, hkane, hcon, exceptIsOk]

end Glean
namespace Glean

/-- C4: an ID token that passes signature/issuer/audience/time validation
verifies only when its `nonce` claim equals the nonce consumed for the state:
a successful verification pins the claim to the expected nonce, and running
the same verification expecting any nonce the claim does not match fails with
the nonce-mismatch error. -/
theorem nonce_binding (up : String → UrlParts) (p : OIDCProviderState)
    (oidcConfig : OidcDiscoveryConfig)
    (headerResult : Except JoseError JwtHeader)
    (fetchResult : Except Unit Jwks) (monoNow : Int)
    (joseDecode : JwkKey → String → Option String → Except JoseError IdTokenClaims)
    (goodNonce badNonce : String) (accessToken : Option String) (wallNow : Int)
    (claims : IdTokenClaims)
    (hpass : (verify_id_token up p oidcConfig headerResult fetchResult monoNow
        joseDecode goodNonce accessToken wallNow).1 = .ok claims)
    (hbad : claims.nonce ≠ some badNonce) :
    claims.nonce = some goodNonce ∧
    (verify_id_token up p oidcConfig headerResult fetchResult monoNow
        joseDecode badNonce accessToken wallNow).1 = .error .nonceMismatch := by
  simp only [verify_id_token] at hpass ⊢
  split at hpass
  · exact absurd hpass (by simp)
  · rename_i header
    split at hpass
    · exact absurd hpass (by simp)
    · rename_i hkid
      rw [if_neg hkid]
      split at hpass
      · exact absurd hpass (by simp)
      · rename_i halg
        rw [if_neg halg]
        split at hpass
        · exact absurd hpass (by simp)
        · rename_i jw p2 hjwks
          split at hpass
          · exact absurd hpass (by simp)
          · rename_i signingKey hfind
            split at hpass
            · exact absurd hpass (by simp)
            · rename_i htruthy
              rw [if_neg htruthy]
              split at hpass
              · exact absurd hpass (by simp)
              · rename_i hallowed
                rw [if_neg hallowed]
                split at hpass
                · exact absurd hpass (by simp)
                · rename_i hmismatch
                  rw [if_neg hmismatch]
                  split at hpass
                  · exact absurd hpass (by simp)
                  · rename_i claims0 hdecode
                    split at hpass
                    · exact absurd hpass (by simp)
                    · rename_i hnonce
                      split at hpass
                      · exact absurd hpass (by simp)
                      · rename_i hiat
                        split at hpass
                        · exact absurd hpass (by simp)
                        · rename_i hnbf
                          have hcc : claims0 = claims := by
                            simpa using hpass
                          subst hcc
                          have hng : claims0.nonce = some goodNonce := by
                            simpa using hnonce
                          refine ⟨hng, ?_⟩
                          rw [if_pos (by simp [hbad])]

end Glean
namespace Glean

/-- Counterexample to the claim that a JWKS cache miss for an unknown `kid`
triggers a fresh fetch: with a fresh cache that lacks the requested `kid`,
verification fails with the unknown-key error even though the set a refetch
would return (here `fetchResult`) does contain the `kid`, and the cached set
is not replaced. -/
theorem jwks_no_refetch_on_kid_miss :
    jwksCacheFresh
      ⟨"cid", "sec", "https://idp", ["openid"], 86400,
        some ⟨"https://idp/a", "https://idp/t", "https://idp/jwks"⟩,
        some ⟨[⟨some "oldkid", some "RS256", "m1"⟩]⟩, some 0⟩ 10 = true ∧
    (Jwks.mk [⟨some "newkid", some "RS256", "m2"⟩]).keys.any
      (fun k => k.kid == some "newkid") = true ∧
    (verify_id_token (fun _ => ⟨"https", "idp", ""⟩)
      ⟨"cid", "sec", "https://idp", ["openid"], 86400,
        some ⟨"https://idp/a", "https://idp/t", "https://idp/jwks"⟩,
        some ⟨[⟨some "oldkid", some "RS256", "m1"⟩]⟩, some 0⟩
      ⟨"https://idp/a", "https://idp/t", "https://idp/jwks"⟩
      (.ok ⟨some "newkid", some "RS256"⟩)
      (.ok ⟨[⟨some "newkid", some "RS256", "m2"⟩]⟩) 10
      (fun _ _ _ => .ok ⟨some "s", some "n", none, none, some 1⟩)
      "n" none 0).1 = .error .noMatchingKey ∧
    (verify_id_token (fun _ => ⟨"https", "idp", ""⟩)
      ⟨"cid", "sec", "https://idp", ["openid"], 86400,
        some ⟨"https://idp/a", "https://idp/t", "https://idp/jwks"⟩,
        some ⟨[⟨some "oldkid", some "RS256", "m1"⟩]⟩, some 0⟩
      ⟨"https://idp/a", "https://idp/t", "https://idp/jwks"⟩
      (.ok ⟨some "newkid", some "RS256"⟩)
      (.ok ⟨[⟨some "newkid", some "RS256", "m2"⟩]⟩) 10
      (fun _ _ _ => .ok ⟨some "s", some "n", none, none, some 1⟩)
      "n" none 0).2.jwks = some ⟨[⟨some "oldkid", some "RS256", "m1"⟩]⟩ := by
  refine ⟨by decide, by decide, by decide, by decide⟩

/-- **C5** amended: a cached key set is used only while the cache age is
within `jwks_cache_ttl_seconds`; on expiry (or an empty cache) a fetch
replaces the whole cached set; and a `kid` absent from the key set so
obtained fails verification immediately with the unknown-key error — no
additional refetch is attempted on a `kid` miss. -/
theorem jwks_cache_ttl_and_kid_lookup (up : String → UrlParts)
    (p : OIDCProviderState) (oidcConfig : OidcDiscoveryConfig) (monoNow : Int)
    (fetchResult : Except Unit Jwks)
    (joseDecode : JwkKey → String → Option String → Except JoseError IdTokenClaims)
    (nonce : String) (accessToken : Option String) (wallNow : Int) :
    (∀ jwks cachedAt, p.jwks = some jwks → p.jwks_cached_at = some cachedAt →
      monoNow - cachedAt ≤ p.jwks_cache_ttl_seconds →
      get_jwks up p oidcConfig monoNow fetchResult = (.ok jwks, p)) ∧
    (jwksCacheFresh p monoNow = false →
      oidcConfig.jwks_uri ≠ "" →
      validate_https_url up oidcConfig.jwks_uri = true →
      validate_same_domain up p.issuer oidcConfig.jwks_uri = true →
      ∀ jwks, fetchResult = .ok jwks →
      get_jwks up p oidcConfig monoNow fetchResult =
        (.ok jwks, { p with jwks := some jwks, jwks_cached_at := some monoNow })) ∧
    (∀ hdr, pyTruthyStr hdr.kid = true →
      (pyTruthyStr hdr.alg &&
        !(ALLOWED_SIGNING_ALGORITHMS.contains (hdr.alg.getD ""))) = false →
      ∀ jw, (get_jwks up p oidcConfig monoNow fetchResult).1 = .ok jw →
      jw.keys.find? (fun key => key.kid == hdr.kid) = none →
      verify_id_token up p oidcConfig (.ok hdr) fetchResult monoNow
          joseDecode nonce accessToken wallNow =
        (.error .noMatchingKey, (get_jwks up p oidcConfig monoNow fetchResult).2)) := by
  refine ⟨?_, ?_, ?_⟩
  · intro jwks cachedAt hj hc httl
    simp only [get_jwks, hj, hc, if_pos httl]
  · intro hfresh hne hhttps hdom jwks hfetch
    have hfetched : fetchJwks up p oidcConfig monoNow fetchResult =
        (.ok jwks, { p with jwks := some jwks, jwks_cached_at := some monoNow }) := by
      simp only [fetchJwks, if_neg hne, hhttps, hdom, Bool.not_true,
        Bool.false_eq_true, if_false, hfetch]
    rcases hj : p.jwks with _ | jwks0
    · simp only [get_jwks, hj]
      exact hfetched
    · rcases hc : p.jwks_cached_at with _ | cachedAt
      · simp only [get_jwks, hj, hc]
        exact hfetched
      · have hstale : ¬(monoNow - cachedAt ≤ p.jwks_cache_ttl_seconds) := by
          simp only [jwksCacheFresh, hj, hc] at hfresh
          simpa using hfresh
        simp only [get_jwks, hj, hc, if_neg hstale]
        exact hfetched
  · intro hdr hkid halg jw hjw hfind
    have hjw2 : get_jwks up p oidcConfig monoNow fetchResult =
        (.ok jw, (get_jwks up p oidcConfig monoNow fetchResult).2) := by
      rw [← hjw]
    simp only [verify_id_token, hkid, Bool.not_true, Bool.false_eq_true, if_false, halg]
    rw [hjw2]
    simp only [hfind]

end Glean
namespace Glean

theorem append_query_ne_empty (a b : String) : a ++ "?" ++ b ≠ "" := by
  intro h
  have hd := congrArg String.data h
  simp [String.data_append] at hd

/-- C1: with OIDC enabled, a provider configured, discovery loadable and
the rate limit not exceeded, the authorize handler persists the state marker
"1", the nonce, and the PKCE code verifier under three distinct namespaced
keys derived from the fresh state, each with its own positive TTL, and
returns HTTP 200 with the authorization URL and the state; a subsequent
successful callback for that state leaves none of the three keys in the
store. -/
theorem authorize_persists_attempt_and_callback_clears
    (ipAddr : String → Option String) (cfg : AuthProviderConfig)
    (pc : ProviderConfigEntry) (provider : OIDCProviderState)
    (d : OidcDiscoveryConfig) (sha256 : List Nat → List Nat)
    (stateBytes nonceBytes pkceBytes : List Nat) (timeNs : Nat)
    (req req2 : Request) (kv : KVStore) (cs : CounterStore)
    (login : String → String → String → String → Except Unit AuthPayload)
    (payload : AuthPayload) (code : String)
    (henabled : cfg.oidc_enabled = true)
    (hdisc : provider.oidc_config = some d)
    (hnb : nonceBytes ≠ []) (hpb : pkceBytes ≠ [])
    (hsha : sha256 (utf8Bytes (token_urlsafe pkceBytes)) ≠ [])
    (hrl : (csIncr cs (RedisKeys.oidc_rate_limit "authorize"
        (get_client_identifier ipAddr cfg req))).1 ≤ cfg.oidc_authorize_rate_limit) :
    let state := token_urlsafe stateBytes
    let nonce := token_urlsafe nonceBytes
    let verifier := (generate_pkce_pair sha256 pkceBytes).1
    let out := oidc_authorize ipAddr cfg (some pc) (.ok provider) sha256
        stateBytes nonceBytes pkceBytes timeNs req kv cs
    (∃ url, out.response = .ok (url, state)) ∧
    out.kv (RedisKeys.oidc_state state) = some ("1", RedisKeys.OIDC_STATE_TTL) ∧
    out.kv (RedisKeys.oidc_nonce state) = some (nonce, RedisKeys.OIDC_NONCE_TTL) ∧
    out.kv (RedisKeys.oidc_pkce_verifier state) =
      some (verifier, RedisKeys.OIDC_PKCE_VERIFIER_TTL) ∧
    (RedisKeys.oidc_state state ≠ RedisKeys.oidc_nonce state ∧
      RedisKeys.oidc_state state ≠ RedisKeys.oidc_pkce_verifier state ∧
      RedisKeys.oidc_nonce state ≠ RedisKeys.oidc_pkce_verifier state) ∧
    0 < RedisKeys.OIDC_STATE_TTL ∧ 0 < RedisKeys.OIDC_NONCE_TTL ∧
    0 < RedisKeys.OIDC_PKCE_VERIFIER_TTL ∧
    ((csIncr out.counters (RedisKeys.oidc_rate_limit "callback"
        (get_client_identifier ipAddr cfg req2))).1 ≤ cfg.oidc_callback_rate_limit →
      login code pc.redirect_uri nonce verifier = .ok payload →
      (oidc_callback ipAddr cfg (some pc) login req2 code state out.kv
          out.counters).response = .ok payload ∧
      (oidc_callback ipAddr cfg (some pc) login req2 code state out.kv
          out.counters).kv (RedisKeys.oidc_state state) = none ∧
      (oidc_callback ipAddr cfg (some pc) login req2 code state out.kv
          out.counters).kv (RedisKeys.oidc_nonce state) = none ∧
      (oidc_callback ipAddr cfg (some pc) login req2 code state out.kv
          out.counters).kv (RedisKeys.oidc_pkce_verifier state) = none) := by
  intro state nonce verifier out
  obtain ⟨h1, h2, h3⟩ := oidc_keys_pairwise_ne state
  have hnonce_ne : nonce ≠ "" := token_urlsafe_ne_empty nonceBytes hnb
  have hver_ne : verifier ≠ "" := token_urlsafe_ne_empty pkceBytes hpb
  have hch_ne : (generate_pkce_pair sha256 pkceBytes).2 ≠ "" :=
    token_urlsafe_ne_empty (sha256 (utf8Bytes (token_urlsafe pkceBytes))) hsha
  obtain ⟨cs2, hpass⟩ : ∃ cs2, enforce_oidc_rate_limit ipAddr cfg cs req "authorize"
      cfg.oidc_authorize_rate_limit = (none, cs2) :=
    ⟨_, enforce_rate_limit_pass ipAddr cfg cs req "authorize"
      cfg.oidc_authorize_rate_limit hrl⟩
  have hurl : get_authorization_url provider state pc.redirect_uri (some nonce)
      (some (generate_pkce_pair sha256 pkceBytes).2) timeNs =
      .ok (d.authorization_endpoint ++ "?" ++ urlencode
        [("client_id", provider.client_id), ("redirect_uri", pc.redirect_uri),
         ("response_type", "code"), ("scope", String.intercalate " " provider.scopes),
         ("state", state), ("nonce", nonce),
         ("code_challenge", (generate_pkce_pair sha256 pkceBytes).2),
         ("code_challenge_method", "S256"), ("_t", toString timeNs)]) := by
    simp only [get_authorization_url, hdisc]
    rw [if_neg (by simp [pyTruthyStr, hnonce_ne]),
      if_neg (by simp [pyTruthyStr, hch_ne])]
    rfl
  have hurlne : d.authorization_endpoint ++ "?" ++ urlencode
      [("client_id", provider.client_id), ("redirect_uri", pc.redirect_uri),
       ("response_type", "code"), ("scope", String.intercalate " " provider.scopes),
       ("state", state), ("nonce", nonce),
       ("code_challenge", (generate_pkce_pair sha256 pkceBytes).2),
       ("code_challenge_method", "S256"), ("_t", toString timeNs)] ≠ "" :=
    append_query_ne_empty _ _
  have hout : out = ⟨.ok (d.authorization_endpoint ++ "?" ++ urlencode
      [("client_id", provider.client_id), ("redirect_uri", pc.redirect_uri),
       ("response_type", "code"), ("scope", String.intercalate " " provider.scopes),
       ("state", state), ("nonce", nonce),
       ("code_challenge", (generate_pkce_pair sha256 pkceBytes).2),
       ("code_challenge_method", "S256"), ("_t", toString timeNs)], state),
      kvSetex (kvSetex (kvSetex kv (RedisKeys.oidc_state state)
          RedisKeys.OIDC_STATE_TTL "1") (RedisKeys.oidc_nonce state)
          RedisKeys.OIDC_NONCE_TTL nonce) (RedisKeys.oidc_pkce_verifier state)
          RedisKeys.OIDC_PKCE_VERIFIER_TTL verifier,
      cs2⟩ := by
    simp only [out, oidc_authorize, henabled, Bool.not_true, Bool.false_eq_true,
      if_false, hpass, hurl]
    rw [if_neg hurlne]
  have hst : out.kv (RedisKeys.oidc_state state) =
      some ("1", RedisKeys.OIDC_STATE_TTL) := by
    rw [hout]
    simp [kvSetex, h1, h2]
  have hnc : out.kv (RedisKeys.oidc_nonce state) =
      some (nonce, RedisKeys.OIDC_NONCE_TTL) := by
    rw [hout]
    simp [kvSetex, h3]
  have hpk : out.kv (RedisKeys.oidc_pkce_verifier state) =
      some (verifier, RedisKeys.OIDC_PKCE_VERIFIER_TTL) := by
    rw [hout]
    simp [kvSetex]
  refine ⟨⟨_, by rw [hout]⟩, hst, hnc, hpk, ⟨h1, h2, h3⟩, by decide, by decide,
    by decide, ?_⟩
  intro hrl2 hlogin
  obtain ⟨cs3, hpass2⟩ : ∃ cs3, enforce_oidc_rate_limit ipAddr cfg out.counters req2
      "callback" cfg.oidc_callback_rate_limit = (none, cs3) :=
    ⟨_, enforce_rate_limit_pass ipAddr cfg out.counters req2 "callback"
      cfg.oidc_callback_rate_limit hrl2⟩
  have hconsume : consume_oidc_auth_context out.kv state =
      (.ok (nonce, verifier), (consume_oidc_auth_context out.kv state).2) := by
    have hfst : (consume_oidc_auth_context out.kv state).1 = .ok (nonce, verifier) := by
      simp only [consume_oidc_auth_context, kvExists, kvGet, hst, hnc, hpk]
      simp [pyTruthyStr, hnonce_ne, hver_ne]
    rw [← hfst]
  obtain ⟨kv4, hconsume2⟩ : ∃ kv4, consume_oidc_auth_context out.kv state =
      (.ok (nonce, verifier), kv4) := ⟨_, hconsume⟩
  have hkv4 : kv4 = (consume_oidc_auth_context out.kv state).2 := by
    rw [hconsume2]
  have hcb : oidc_callback ipAddr cfg (some pc) login req2 code state out.kv
      out.counters = ⟨.ok payload, kv4, cs3⟩ := by
    simp only [oidc_callback, henabled, Bool.not_true, Bool.false_eq_true, if_false,
      hpass2, hconsume2, hlogin]
  obtain ⟨hd1, hd2, hd3⟩ := consume_deletes_all out.kv state
  refine ⟨by rw [hcb], ?_, ?_, ?_⟩
  · rw [hcb]
    show kv4 (RedisKeys.oidc_state state) = none
    rw [hkv4]
    exact hd1
  · rw [hcb]
    show kv4 (RedisKeys.oidc_nonce state) = none
    rw [hkv4]
    exact hd2
  · rw [hcb]
    show kv4 (RedisKeys.oidc_pkce_verifier state) = none
    rw [hkv4]
    exact hd3

end Glean
namespace Glean

/-- Witness for `rate_limit_fixed_window`: with limit 0, the first request is
already over the limit and is rejected with a `Retry-After` of at least 1. -/
theorem rate_limit_fixed_window_witness :
    ((csIncr (fun _ => none) (RedisKeys.oidc_rate_limit "authorize"
        (get_client_identifier (fun _ => none) ⟨true, 60, 1, 1, "", ""⟩
          ⟨none, fun _ => none⟩))).1 > 0) ∧
    (enforce_oidc_rate_limit (fun _ => none) ⟨true, 60, 1, 1, "", ""⟩ (fun _ => none)
      ⟨none, fun _ => none⟩ "authorize" 0).1.isSome = true ∧
    (∀ rl, (enforce_oidc_rate_limit (fun _ => none) ⟨true, 60, 1, 1, "", ""⟩
        (fun _ => none) ⟨none, fun _ => none⟩ "authorize" 0).1 = some rl →
      1 ≤ rl.retryAfter) := by
  have h := rate_limit_fixed_window (fun _ => none) ⟨true, 60, 1, 1, "", ""⟩
    (fun _ => none) ⟨none, fun _ => none⟩ "authorize" 0
  exact ⟨by decide, h.2.2.2.2.1.mpr (by decide), fun rl hrl => (h.2.2.2.2.2 rl hrl).2⟩

/-- Witness for `id_token_algorithm_allowlist`: an `alg: none` token is
rejected regardless of the key material. -/
theorem id_token_algorithm_allowlist_witness :
    (∃ a, (JwtHeader.mk (some "k1") (some "none")).alg = some a ∧
      a ∈ ["none", "HS256", "HS384", "HS512"]) ∧
    exceptIsOk (verify_id_token (fun _ => ⟨"https", "idp", ""⟩)
      ⟨"cid", "sec", "https://idp", ["openid"], 86400, none,
        some ⟨[⟨some "k1", some "HS256", "m"⟩]⟩, some 0⟩
      ⟨"https://idp/a", "https://idp/t", "https://idp/jwks"⟩
      (.ok ⟨some "k1", some "none"⟩) (.error ()) 0
      (fun _ _ _ => .ok ⟨some "s", some "n", none, none, some 1⟩)
      "n" none 0).1 = false := by
  refine ⟨⟨"none", rfl, by decide⟩, ?_⟩
  exact (id_token_algorithm_allowlist (fun _ => ⟨"https", "idp", ""⟩)
    ⟨"cid", "sec", "https://idp", ["openid"], 86400, none,
      some ⟨[⟨some "k1", some "HS256", "m"⟩]⟩, some 0⟩
    ⟨"https://idp/a", "https://idp/t", "https://idp/jwks"⟩
    ⟨some "k1", some "none"⟩ (.error ()) 0
    (fun _ _ _ => .ok ⟨some "s", some "n", none, none, some 1⟩) "n" none 0).1
    ⟨"none", rfl, by decide⟩

/-- Witness for `nonce_binding`: a token that verifies with its own nonce
fails with the nonce-mismatch error for a different expected nonce. -/
theorem nonce_binding_witness :
    (verify_id_token (fun _ => ⟨"https", "idp", ""⟩)
      ⟨"cid", "sec", "https://idp", ["openid"], 86400,
        some ⟨"https://idp/a", "https://idp/t", "https://idp/jwks"⟩,
        some ⟨[⟨some "k1", some "RS256", "m"⟩]⟩, some 0⟩
      ⟨"https://idp/a", "https://idp/t", "https://idp/jwks"⟩
      (.ok ⟨some "k1", some "RS256"⟩) (.error ()) 0
      (fun _ _ _ => .ok ⟨some "sub1", some "n1", none, none, some 100⟩)
      "n1" none 0).1 = .ok ⟨some "sub1", some "n1", none, none, some 100⟩ ∧
    (verify_id_token (fun _ => ⟨"https", "idp", ""⟩)
      ⟨"cid", "sec", "https://idp", ["openid"], 86400,
        some ⟨"https://idp/a", "https://idp/t", "https://idp/jwks"⟩,
        some ⟨[⟨some "k1", some "RS256", "m"⟩]⟩, some 0⟩
      ⟨"https://idp/a", "https://idp/t", "https://idp/jwks"⟩
      (.ok ⟨some "k1", some "RS256"⟩) (.error ()) 0
      (fun _ _ _ => .ok ⟨some "sub1", some "n1", none, none, some 100⟩)
      "n2" none 0).1 = .error .nonceMismatch := by
  refine ⟨by decide, ?_⟩
  exact (nonce_binding (fun _ => ⟨"https", "idp", ""⟩)
    ⟨"cid", "sec", "https://idp", ["openid"], 86400,
      some ⟨"https://idp/a", "https://idp/t", "https://idp/jwks"⟩,
      some ⟨[⟨some "k1", some "RS256", "m"⟩]⟩, some 0⟩
    ⟨"https://idp/a", "https://idp/t", "https://idp/jwks"⟩
    (.ok ⟨some "k1", some "RS256"⟩) (.error ()) 0
    (fun _ _ _ => .ok ⟨some "sub1", some "n1", none, none, some 100⟩)
    "n1" "n2" none 0 ⟨some "sub1", some "n1", none, none, some 100⟩
    (by decide) (by decide)).2

/-- Witness for `jwks_cache_ttl_and_kid_lookup`: a fresh cache is served
as-is, without any fetch. -/
theorem jwks_cache_ttl_and_kid_lookup_witness :
    (OIDCProviderState.mk "cid" "sec" "https://idp" ["openid"] 86400
        (some ⟨"https://idp/a", "https://idp/t", "https://idp/jwks"⟩)
        (some ⟨[⟨some "k1", some "RS256", "m"⟩]⟩) (some 0)).jwks =
      some ⟨[⟨some "k1", some "RS256", "m"⟩]⟩ ∧
    get_jwks (fun _ => ⟨"https", "idp", ""⟩)
      ⟨"cid", "sec", "https://idp", ["openid"], 86400,
        some ⟨"https://idp/a", "https://idp/t", "https://idp/jwks"⟩,
        some ⟨[⟨some "k1", some "RS256", "m"⟩]⟩, some 0⟩
      ⟨"https://idp/a", "https://idp/t", "https://idp/jwks"⟩ 10 (.error ()) =
      (.ok ⟨[⟨some "k1", some "RS256", "m"⟩]⟩,
        ⟨"cid", "sec", "https://idp", ["openid"], 86400,
          some ⟨"https://idp/a", "https://idp/t", "https://idp/jwks"⟩,
          some ⟨[⟨some "k1", some "RS256", "m"⟩]⟩, some 0⟩) := by
  refine ⟨rfl, ?_⟩
  exact (jwks_cache_ttl_and_kid_lookup (fun _ => ⟨"https", "idp", ""⟩)
    ⟨"cid", "sec", "https://idp", ["openid"], 86400,
      some ⟨"https://idp/a", "https://idp/t", "https://idp/jwks"⟩,
      some ⟨[⟨some "k1", some "RS256", "m"⟩]⟩, some 0⟩
    ⟨"https://idp/a", "https://idp/t", "https://idp/jwks"⟩ 10 (.error ())
    (fun _ _ _ => .error .jwtError) "n" none 0).1
    ⟨[⟨some "k1", some "RS256", "m"⟩]⟩ 0 rfl rfl (by decide)

/-- Witness for `authorize_persists_attempt_and_callback_clears`: a full
happy-path run over an empty store. -/
theorem authorize_persists_attempt_and_callback_clears_witness :
    (([2] : List Nat) ≠ [] ∧ ([3] : List Nat) ≠ [] ∧
      ((fun _ => [1]) (utf8Bytes (token_urlsafe [3])) : List Nat) ≠ []) ∧
    (let out := (oidc_authorize (fun _ => none) ⟨true, 60, 10, 5, "", ""⟩
        (some ⟨"https://app/cb"⟩)
        (.ok ⟨"cid", "sec", "https://idp", ["openid"], 86400,
          some ⟨"https://idp/a", "https://idp/t", "https://idp/jwks"⟩, none, none⟩)
        (fun _ => [1]) [1] [2] [3] 0 ⟨none, fun _ => none⟩ (fun _ => none)
        (fun _ => none));
      out.kv (RedisKeys.oidc_state (token_urlsafe [1])) =
        some ("1", RedisKeys.OIDC_STATE_TTL) ∧
      (oidc_callback (fun _ => none) ⟨true, 60, 10, 5, "", ""⟩ (some ⟨"https://app/cb"⟩)
        (fun _ _ _ _ => .ok ⟨"u", "t"⟩) ⟨none, fun _ => none⟩ "c" (token_urlsafe [1])
        out.kv out.counters).response = .ok ⟨"u", "t"⟩ ∧
      (oidc_callback (fun _ => none) ⟨true, 60, 10, 5, "", ""⟩ (some ⟨"https://app/cb"⟩)
        (fun _ _ _ _ => .ok ⟨"u", "t"⟩) ⟨none, fun _ => none⟩ "c" (token_urlsafe [1])
        out.kv out.counters).kv (RedisKeys.oidc_state (token_urlsafe [1])) = none) := by
  refine ⟨⟨by decide, by decide, by decide⟩, ?_⟩
  have h := authorize_persists_attempt_and_callback_clears (fun _ => none)
    ⟨true, 60, 10, 5, "", ""⟩ ⟨"https://app/cb"⟩
    ⟨"cid", "sec", "https://idp", ["openid"], 86400,
      some ⟨"https://idp/a", "https://idp/t", "https://idp/jwks"⟩, none, none⟩
    ⟨"https://idp/a", "https://idp/t", "https://idp/jwks"⟩
    (fun _ => [1]) [1] [2] [3] 0 ⟨none, fun _ => none⟩ ⟨none, fun _ => none⟩
    (fun _ => none) (fun _ => none) (fun _ _ _ _ => .ok ⟨"u", "t"⟩) ⟨"u", "t"⟩ "c"
    rfl rfl (by decide) (by decide) (by decide) (by decide)
  have hcall := h.2.2.2.2.2.2.2.2 (by decide) rfl
  exact ⟨h.2.1, hcall.1, hcall.2.1⟩

end Glean
